import Mathlib

/-!
Verification of the Batch File Writer (src/index.js) against its
natural-language specification.

The HTTP handler `app.post('/tasks')` together with `isOriginAllowed` is
embedded shallowly: request bodies become Lean structures, the external
collaborators (Node's `Buffer` codec and the Remote Repository Service
reached through Octokit) become explicit function-valued parameters, and
the handler becomes a pure function that returns both the HTTP response
and the ordered trace of network calls it issues.
-/

namespace Agentme

/-- Status of a single file result: `status` field of a FileResult
(`"ok"`, `"skipped"` or `"error"` in the JSON response). -/
inductive FStatus where
  | ok
  | skipped
  | error
deriving DecidableEq, Repr

/-- One entry of the request's `files` array. Each field is `Option`-valued:
`none` models a JSON field that is absent (JS `undefined`).
`path` as `some ""` models an empty-string path (falsy in JS, like absent). -/
structure FileSpec where
  path : Option String
  content : Option String
  encoding : Option String
deriving DecidableEq, Repr

/-- Shape of the `files` field of the request body: absent, present but not
an array (`Array.isArray` false), or an actual array of file objects. -/
inductive FilesField where
  | absent
  | notArray
  | arr (fs : List FileSpec)
deriving DecidableEq, Repr

/-- Request body of `POST /tasks` (`req.body` after JSON parsing). -/
structure BatchRequest where
  files : FilesField
  commitMessage : Option String
  branch : Option String
deriving DecidableEq, Repr

/-- The parts of the Express request object the handler reads:
the `Origin` header (`req.get('origin')`, `none` when the header is absent)
and the source address `req.ip`. -/
structure Request where
  origin : Option String
  ip : String
  body : BatchRequest
deriving DecidableEq, Repr

/-- Process-wide configuration loaded from the environment at startup:
`ALLOWED_ORIGINS` (already split, trimmed and filtered) and the default
target branch `BRANCH`. Owner, repo, token and user agent only parameterize
the remote client, which is abstracted below, so they are not carried here. -/
structure Config where
  allowedOrigins : List String
  branch : String
deriving DecidableEq, Repr

/-- Arguments of the `octokit.repos.createOrUpdateFileContents` call
issued for one file (owner/repo are fixed process-wide and omitted). -/
structure WriteCall where
  path : String
  message : String
  content : String
  branch : String
  sha : Option String
deriving DecidableEq, Repr

/-- One network call to the Remote Repository Service, as observed on the
wire: a content read (`octokit.repos.getContent`) or a file write
(`octokit.repos.createOrUpdateFileContents`). -/
inductive NetCall where
  | getContent (path : String) (ref : String)
  | write (call : WriteCall)
deriving DecidableEq, Repr

/-- Behaviour of the Remote Repository Service during one request.
`getContent path ref` either fails (the promise rejects, carrying an error
message) or succeeds with a response whose `data.sha` field is the given
`Option String` (`none` when the field is missing).
`write` either fails with an error message or succeeds with the sha of the
commit produced (`createRes.data.commit.sha`). -/
structure Remote where
  getContent : String → String → Except String (Option String)
  write : WriteCall → Except String String

/-- Node's `Buffer` codec, used by the handler as
`Buffer.from(f.content, enc).toString('base64')`: decoding a string to bytes
from base64 or from UTF-8, and encoding bytes back to a base64 string.
Bytes are modelled as naturals below 256. -/
structure BufferModel where
  fromBase64 : String → List Nat
  fromUtf8 : String → List Nat
  toBase64 : List Nat → String

/-- Truthiness test of an optional JS string: `undefined` and `""` are
falsy, every other string is truthy. -/
def falsyStr : Option String → Bool
  | none => true
  | some s => s = ""

/-- Validity check of line 76: `!f.path || typeof f.content === 'undefined'`. -/
def invalidFile (f : FileSpec) : Bool :=
  falsyStr f.path || f.content.isNone

/-- Path reported for a skipped entry, `f.path || null` (line 77):
a falsy path collapses to `null`. -/
def reportPath (f : FileSpec) : Option String :=
  match f.path with
  | none => none
  | some p => if p = "" then none else some p

/-- One entry of the `results` array of the response. Optional fields are
`none` when absent from the pushed object. -/
structure FileResult where
  path : Option String
  status : FStatus
  reason : Option String
  message : Option String
  commitSha : Option String
deriving DecidableEq, Repr

/-- Revision marker extracted from the read, lines 82-95: `sha` stays
`undefined` when the read throws, when the response has no truthy
`data.sha` (`if (getRes && getRes.data && getRes.data.sha)`), and is the
response's sha otherwise. -/
def shaFromRead : Except String (Option String) → Option String
  | Except.error _ => none
  | Except.ok none => none
  | Except.ok (some s) => if s = "" then none else some s

/-- Content string sent to the service, lines 97-99:
`Buffer.from(f.content, f.encoding === 'base64' ? 'base64' : 'utf8')`
re-encoded with `.toString('base64')`. -/
def encodedContent (B : BufferModel) (enc : Option String) (c : String) : String :=
  B.toBase64 (if enc = some "base64" then B.fromBase64 c else B.fromUtf8 c)

/-- Write call built for one valid file (lines 102-110): the target path,
the batch's commit message, the re-encoded content, the target branch, and
the revision marker obtained from the preceding read (if any). -/
def writeCallOf (B : BufferModel) (R : Remote) (branch msg : String)
    (f : FileSpec) : WriteCall :=
  { path := f.path.getD ""
    message := msg
    content := encodedContent B f.encoding (f.content.getD "")
    branch := branch
    sha := shaFromRead (R.getContent (f.path.getD "") branch) }

/-- FileResult pushed for an invalid file object (line 77). -/
def skippedResult (f : FileSpec) : FileResult :=
  { path := reportPath f, status := FStatus.skipped,
    reason := some "invalid file object", message := none, commitSha := none }

/-- FileResult pushed after a successful write (line 111). -/
def okResult (p commitSha : String) : FileResult :=
  { path := some p, status := FStatus.ok,
    reason := none, message := none, commitSha := some commitSha }

/-- FileResult pushed after a failed write (line 113): the service-reported
error message is carried in the `message` field. -/
def errorResult (p m : String) : FileResult :=
  { path := some p, status := FStatus.error,
    reason := none, message := some m, commitSha := none }

/-- Body of the per-file loop (lines 75-115): an invalid file object is
skipped with no network activity; otherwise the handler reads the current
sha (swallowing failures), issues the write, and records an `ok` result
with the commit sha or an `error` result with the service's message.
The second component is the ordered trace of network calls made. -/
def processFile (B : BufferModel) (R : Remote) (branch msg : String)
    (f : FileSpec) : FileResult × List NetCall :=
  if invalidFile f then
    (skippedResult f, [])
  else
    let p := f.path.getD ""
    let wc := writeCallOf B R branch msg f
    let calls := [NetCall.getContent p branch, NetCall.write wc]
    match R.write wc with
    | Except.ok commitSha => (okResult p commitSha, calls)
    | Except.error m => (errorResult p m, calls)

/-- Responses the `/tasks` handler can produce in the embedded fragment:
`403 {error:"origin not allowed"}`, `400 {error:"files array required"}`,
or `200 {ok:true, results:[...]}`. -/
inductive TasksResponse where
  | forbidden
  | badRequest
  | success (results : List FileResult)
deriving DecidableEq, Repr

/-- HTTP status code of each response shape. -/
def TasksResponse.statusCode : TasksResponse → Nat
  | TasksResponse.forbidden => 403
  | TasksResponse.badRequest => 400
  | TasksResponse.success _ => 200

/-- Origin check of lines 47-51: the effective origin is
`req.get('origin') || req.ip || ''`; an empty allow-list admits everything;
otherwise the effective origin or the raw `req.ip` must be listed. -/
def isOriginAllowed (cfg : Config) (req : Request) : Bool :=
  let origin :=
    match req.origin with
    | some o => if o = "" then req.ip else o
    | none => req.ip
  if cfg.allowedOrigins.length = 0 then true
  else cfg.allowedOrigins.contains origin || cfg.allowedOrigins.contains req.ip

/-- Handler of `POST /tasks` (lines 63-124): origin gate, files-array
validation, then the sequential per-file loop. Returns the response
together with the ordered trace of network calls issued. -/
def postTasks (B : BufferModel) (R : Remote) (cfg : Config)
    (req : Request) : TasksResponse × List NetCall :=
  if !isOriginAllowed cfg req then (TasksResponse.forbidden, [])
  else
    match req.body.files with
    | FilesField.arr fs =>
        if fs.length = 0 then (TasksResponse.badRequest, [])
        else
          let branch := req.body.branch.getD cfg.branch
          let msg := req.body.commitMessage.getD "Agent: generate files"
          let steps := fs.map (processFile B R branch msg)
          (TasksResponse.success (steps.map Prod.fst),
           (steps.map Prod.snd).flatten)
    | _ => (TasksResponse.badRequest, [])

/-- Origin decision of the cors middleware options (lines 37-43),
registered with `app.use(cors(corsOptions))` on line 44 before the route:
a falsy declared origin (header absent or the empty string) is allowed
(`if (!origin) return callback(null, true)`, server-to-server); otherwise
the origin is allowed when the allow-list is empty or lists it; any other
declared origin makes the callback pass `new Error('Not allowed by CORS')`
to Express. -/
def corsAllows (cfg : Config) (origin : Option String) : Bool :=
  match origin with
  | none => true
  | some o =>
      if o = "" then true
      else cfg.allowedOrigins.length = 0 || cfg.allowedOrigins.contains o

/-- Response of the whole app to `POST /tasks`: either the 500 produced by
Express's default error handler when the cors middleware rejects the
declared origin, or the handler's own response. -/
inductive AppResponse where
  | serverError
  | handled (r : TasksResponse)
deriving DecidableEq, Repr

/-- HTTP status code of the app-level response: 500 for the cors
rejection, the handler's code otherwise. -/
def AppResponse.statusCode : AppResponse → Nat
  | AppResponse.serverError => 500
  | AppResponse.handled r => r.statusCode

/-- Request pipeline for `POST /tasks`: the cors middleware gate (lines
36-44) followed by the route handler (lines 63-124). A cors rejection
reaches Express's default error handler, which answers 500 before any
handler code or network call runs. -/
def appPostTasks (B : BufferModel) (R : Remote) (cfg : Config)
    (req : Request) : AppResponse × List NetCall :=
  if corsAllows cfg req.origin then
    let out := postTasks B R cfg req
    (AppResponse.handled out.1, out.2)
  else (AppResponse.serverError, [])

/-- Default branch and default commit message applied by the body
destructuring on line 69. -/
def effBranch (cfg : Config) (req : Request) : String :=
  req.body.branch.getD cfg.branch

/-- Default commit message of line 69. -/
def effMessage (req : Request) : String :=
  req.body.commitMessage.getD "Agent: generate files"

/-- Concrete Buffer codec used to instantiate witnesses: constant byte
lists and a constant base64 output. -/
def B0 : BufferModel :=
  { fromBase64 := fun _ => [104, 105]
    fromUtf8 := fun _ => [104, 105]
    toBase64 := fun _ => "aGk=" }

/-- Concrete remote service for witnesses: every read rejects (file never
exists) and every write succeeds with one fixed commit sha. -/
def R0 : Remote :=
  { getContent := fun _ _ => Except.error "Not Found"
    write := fun _ => Except.ok "deadbeef" }

/-- Concrete remote service whose writes always reject, for witnesses of
the error-containment claims. -/
def Rfail : Remote :=
  { getContent := fun _ _ => Except.ok (some "oldsha")
    write := fun _ => Except.error "Validation Failed" }

/-- Unfolding of the handler on an accepted request: origin allowed and a
non-empty files array yield the 200 response built by mapping the per-file
loop body over the files, with the network traces concatenated in order. -/
theorem postTasks_accepted (B : BufferModel) (R : Remote) (cfg : Config)
    (req : Request) (fs : List FileSpec)
    (horig : isOriginAllowed cfg req = true)
    (hfiles : req.body.files = FilesField.arr fs)
    (hne : fs ≠ []) :
    postTasks B R cfg req =
      (TasksResponse.success
        (fs.map (fun f => (processFile B R (effBranch cfg req) (effMessage req) f).1)),
       (fs.map (fun f => (processFile B R (effBranch cfg req) (effMessage req) f).2)).flatten) := by
  unfold postTasks
  rw [horig, hfiles]
  simp [hne, effBranch, effMessage, Function.comp_def]

/-- Concrete allow-list configuration used by witnesses and
counterexamples. -/
def cfgA : Config := { allowedOrigins := ["https://app.example.com"], branch := "main" }

/-- Concrete empty allow-list (allow everything) configuration. -/
def cfgEmpty : Config := { allowedOrigins := [], branch := "main" }

/-- Concrete valid file object. -/
def fileA : FileSpec := { path := some "a.txt", content := some "hi", encoding := none }

/-- Concrete invalid file object (no content field). -/
def fileNoContent : FileSpec := { path := some "b.txt", content := none, encoding := none }

/-- Concrete originless request carrying one valid file. -/
def reqNoOrigin : Request :=
  { origin := none, ip := "10.0.0.9",
    body := { files := FilesField.arr [fileA], commitMessage := none, branch := none } }

/-- C10: the origin check runs before the files-array validation: every
request whose origin check fails gets the 403 "origin not allowed" response
with no network calls, whatever the files field holds (missing, empty or
non-array included), so 403 takes precedence over 400. -/
theorem c10_origin_check_precedes_files_check (B : BufferModel) (R : Remote)
    (cfg : Config) (req : Request)
    (horig : isOriginAllowed cfg req = false) :
    postTasks B R cfg req = (TasksResponse.forbidden, []) ∧
    (postTasks B R cfg req).1.statusCode = 403 := by
  unfold postTasks
  rw [horig]
  simp [TasksResponse.statusCode]

/-- C10 witness: a concrete rejected-origin request whose body has no files
field at all still receives 403, not 400. -/
theorem c10_origin_check_precedes_files_check_witness :
    postTasks B0 R0 cfgA
        { origin := some "https://evil.example", ip := "203.0.113.7",
          body := { files := FilesField.absent, commitMessage := none, branch := none } } =
      (TasksResponse.forbidden, []) ∧
    (postTasks B0 R0 cfgA
        { origin := some "https://evil.example", ip := "203.0.113.7",
          body := { files := FilesField.absent, commitMessage := none, branch := none } }).1.statusCode = 403 :=
  c10_origin_check_precedes_files_check B0 R0 cfgA _ (by decide)

/-- C7: an origin-allowed request whose files field is missing, not an
array, or an empty array receives 400 "files array required" and causes no
network call. -/
theorem c7_files_validation_400 (B : BufferModel) (R : Remote) (cfg : Config)
    (req : Request)
    (horig : isOriginAllowed cfg req = true)
    (hbad : req.body.files = FilesField.absent ∨ req.body.files = FilesField.notArray ∨
      req.body.files = FilesField.arr []) :
    postTasks B R cfg req = (TasksResponse.badRequest, []) ∧
    (postTasks B R cfg req).1.statusCode = 400 := by
  unfold postTasks
  rcases hbad with h | h | h <;> rw [horig, h] <;> simp [TasksResponse.statusCode]

/-- C7 witness: a concrete allowed-origin request with an empty files array
receives 400 and an empty network trace. -/
theorem c7_files_validation_400_witness :
    postTasks B0 R0 cfgEmpty
        { origin := none, ip := "10.0.0.9",
          body := { files := FilesField.arr [], commitMessage := none, branch := none } } =
      (TasksResponse.badRequest, []) ∧
    (postTasks B0 R0 cfgEmpty
        { origin := none, ip := "10.0.0.9",
          body := { files := FilesField.arr [], commitMessage := none, branch := none } }).1.statusCode = 400 :=
  c7_files_validation_400 B0 R0 cfgEmpty _ (by decide) (Or.inr (Or.inr rfl))

/-- C3 counterexample: with allow-list ["https://app.example.com"], a
request carrying no Origin header, sent from source address 10.0.0.9, is
rejected with 403 and no network call — refuting "requests with no declared
origin are always allowed regardless of the configured allow-list". -/
theorem c3_counterexample :
    reqNoOrigin.origin = none ∧
    cfgA.allowedOrigins ≠ [] ∧
    isOriginAllowed cfgA reqNoOrigin = false ∧
    postTasks B0 R0 cfgA reqNoOrigin = (TasksResponse.forbidden, []) := by
  refine ⟨rfl, by decide, by decide, by decide⟩

/-- C3 (amended): a request with no declared Origin header passes the
origin check iff the allow-list is empty or contains the request's source
address (`req.ip`, which the check substitutes for the missing header); it
is not accepted unconditionally. -/
theorem c3_originless_iff_ip_allowed (cfg : Config) (req : Request)
    (h : req.origin = none) :
    isOriginAllowed cfg req = true ↔
      (cfg.allowedOrigins = [] ∨ req.ip ∈ cfg.allowedOrigins) := by
  unfold isOriginAllowed
  rw [h]
  cases hcfg : cfg.allowedOrigins with
  | nil => simp
  | cons a l => simp

/-- C3 witness: at the empty allow-list, the amended equivalence evaluates
to an accepted originless request. -/
theorem c3_originless_iff_ip_allowed_witness :
    (isOriginAllowed cfgEmpty reqNoOrigin = true ↔
      (cfgEmpty.allowedOrigins = [] ∨ reqNoOrigin.ip ∈ cfgEmpty.allowedOrigins)) :=
  c3_originless_iff_ip_allowed cfgEmpty reqNoOrigin rfl

/-- C5: in an accepted batch, a file object whose path is missing or whose
content is undefined yields the skipped FileResult with reason "invalid
file object", triggers no network call, and the batch continues: the
response still has one result per input file and carries the skipped entry
at the file's position. -/
theorem c5_invalid_file_skipped (B : BufferModel) (R : Remote) (cfg : Config)
    (req : Request) (fs : List FileSpec) (i : Nat) (f : FileSpec)
    (horig : isOriginAllowed cfg req = true)
    (hfiles : req.body.files = FilesField.arr fs) (hne : fs ≠ [])
    (hf : fs[i]? = some f)
    (hinv : f.path = none ∨ f.content = none) :
    processFile B R (effBranch cfg req) (effMessage req) f = (skippedResult f, []) ∧
    ∃ results, (postTasks B R cfg req).1 = TasksResponse.success results ∧
      results.length = fs.length ∧
      results[i]? = some (skippedResult f) := by
  have hinv' : invalidFile f = true := by
    rcases hinv with h | h <;> simp [invalidFile, falsyStr, h]
  have hpf : processFile B R (effBranch cfg req) (effMessage req) f =
      (skippedResult f, []) := by
    simp [processFile, hinv']
  refine ⟨hpf, ?_⟩
  rw [postTasks_accepted B R cfg req fs horig hfiles hne]
  refine ⟨_, rfl, by simp, ?_⟩
  simp only [List.getElem?_map, hf, Option.map_some']
  rw [hpf]

/-- C5 witness: a concrete batch holding one content-less file object
evaluates to a skipped result and an empty network trace. -/
theorem c5_invalid_file_skipped_witness :
    processFile B0 R0
        (effBranch cfgEmpty
          { origin := none, ip := "10.0.0.9",
            body := { files := FilesField.arr [fileNoContent], commitMessage := none, branch := none } })
        (effMessage
          { origin := none, ip := "10.0.0.9",
            body := { files := FilesField.arr [fileNoContent], commitMessage := none, branch := none } })
        fileNoContent =
      (skippedResult fileNoContent, []) ∧
    ∃ results,
      (postTasks B0 R0 cfgEmpty
        { origin := none, ip := "10.0.0.9",
          body := { files := FilesField.arr [fileNoContent], commitMessage := none, branch := none } }).1 =
        TasksResponse.success results ∧
      results.length = [fileNoContent].length ∧
      results[0]? = some (skippedResult fileNoContent) :=
  c5_invalid_file_skipped B0 R0 cfgEmpty _ [fileNoContent] 0 fileNoContent
    (by decide) rfl (by decide) rfl (Or.inr rfl)

/-- C1: an accepted batch (origin allowed, files a non-empty array) is
answered with 200 `{ok:true, results}` where `results` has exactly one
entry per input file, the entry at position i being the outcome of
processing file i, and skipped entries are passed through at their
position rather than dropped. -/
theorem c1_one_result_per_file (B : BufferModel) (R : Remote) (cfg : Config)
    (req : Request) (fs : List FileSpec)
    (horig : isOriginAllowed cfg req = true)
    (hfiles : req.body.files = FilesField.arr fs) (hne : fs ≠ []) :
    ∃ results, (postTasks B R cfg req).1 = TasksResponse.success results ∧
      results.length = fs.length ∧
      (∀ i : Nat, results[i]? =
        (fs[i]?).map (fun f => (processFile B R (effBranch cfg req) (effMessage req) f).1)) ∧
      (∀ i : Nat, ∀ f, fs[i]? = some f → invalidFile f = true →
        results[i]? = some (skippedResult f)) := by
  rw [postTasks_accepted B R cfg req fs horig hfiles hne]
  refine ⟨_, rfl, by simp, fun i => by simp [List.getElem?_map], fun i f hf hinv => ?_⟩
  simp only [List.getElem?_map, hf, Option.map_some']
  simp [processFile, hinv]

/-- C1 witness: a concrete accepted one-file batch has exactly one result,
the outcome of processing that file. -/
theorem c1_one_result_per_file_witness :
    ∃ results, (postTasks B0 R0 cfgEmpty reqNoOrigin).1 = TasksResponse.success results ∧
      results.length = [fileA].length ∧
      (∀ i : Nat, results[i]? =
        ([fileA][i]?).map
          (fun f => (processFile B0 R0 (effBranch cfgEmpty reqNoOrigin) (effMessage reqNoOrigin) f).1)) ∧
      (∀ i : Nat, ∀ f, [fileA][i]? = some f → invalidFile f = true →
        results[i]? = some (skippedResult f)) :=
  c1_one_result_per_file B0 R0 cfgEmpty reqNoOrigin [fileA] (by decide) rfl (by decide)

/-- C2: per-file failures are contained in-band: whatever the remote
service does (reads and writes may fail arbitrarily), an accepted batch is
answered with HTTP 200, and a file whose write fails is reported at its
own position with status "error" and the service's message — the failure
is never thrown upward. -/
theorem c2_per_file_errors_contained (B : BufferModel) (R : Remote)
    (cfg : Config) (req : Request) (fs : List FileSpec)
    (horig : isOriginAllowed cfg req = true)
    (hfiles : req.body.files = FilesField.arr fs) (hne : fs ≠ []) :
    (postTasks B R cfg req).1.statusCode = 200 ∧
    ∃ results, (postTasks B R cfg req).1 = TasksResponse.success results ∧
      results.length = fs.length ∧
      ∀ i : Nat, ∀ f m, fs[i]? = some f → invalidFile f = false →
        R.write (writeCallOf B R (effBranch cfg req) (effMessage req) f) = Except.error m →
        results[i]? = some (errorResult (f.path.getD "") m) := by
  rw [postTasks_accepted B R cfg req fs horig hfiles hne]
  refine ⟨rfl, _, rfl, by simp, fun i f m hf hvalid hw => ?_⟩
  simp only [List.getElem?_map, hf, Option.map_some']
  simp [processFile, hvalid, hw]

/-- C2 witness: against a remote whose writes always fail, a concrete
accepted one-file batch still returns 200, with the failure reported
in-band at position 0. -/
theorem c2_per_file_errors_contained_witness :
    (postTasks B0 Rfail cfgEmpty reqNoOrigin).1.statusCode = 200 ∧
    ∃ results, (postTasks B0 Rfail cfgEmpty reqNoOrigin).1 = TasksResponse.success results ∧
      results.length = [fileA].length ∧
      ∀ i : Nat, ∀ f m, [fileA][i]? = some f → invalidFile f = false →
        Rfail.write (writeCallOf B0 Rfail (effBranch cfgEmpty reqNoOrigin) (effMessage reqNoOrigin) f) =
          Except.error m →
        results[i]? = some (errorResult (f.path.getD "") m) :=
  c2_per_file_errors_contained B0 Rfail cfgEmpty reqNoOrigin [fileA] (by decide) rfl (by decide)

/-- C4: for a valid file the loop issues exactly one read followed by one
write; a failed read or a read without a sha yields a write with no
revision marker (a create), a read returning a non-empty sha yields a
write carrying exactly that sha (a conditional update), and the read
outcome is never reported: the result's reason is absent, its status is
never "skipped", and its message is exactly the write outcome's message. -/
theorem c4_revision_marker (B : BufferModel) (R : Remote) (branch msg : String)
    (f : FileSpec) (hvalid : invalidFile f = false) :
    (processFile B R branch msg f).2 =
      [NetCall.getContent (f.path.getD "") branch,
       NetCall.write (writeCallOf B R branch msg f)] ∧
    (∀ e, R.getContent (f.path.getD "") branch = Except.error e →
      (writeCallOf B R branch msg f).sha = none) ∧
    (R.getContent (f.path.getD "") branch = Except.ok none →
      (writeCallOf B R branch msg f).sha = none) ∧
    (∀ s, R.getContent (f.path.getD "") branch = Except.ok (some s) → s ≠ "" →
      (writeCallOf B R branch msg f).sha = some s) ∧
    (processFile B R branch msg f).1.reason = none ∧
    (processFile B R branch msg f).1.status ≠ FStatus.skipped ∧
    ((processFile B R branch msg f).1.message =
      match R.write (writeCallOf B R branch msg f) with
      | Except.error m => some m
      | Except.ok _ => none) := by
  refine ⟨?_, ?_, ?_, ?_, ?_, ?_, ?_⟩
  · cases hw : R.write (writeCallOf B R branch msg f) <;>
      simp [processFile, hvalid, hw]
  · intro e he
    simp [writeCallOf, he, shaFromRead]
  · intro he
    simp [writeCallOf, he, shaFromRead]
  · intro s hs hne
    simp [writeCallOf, hs, shaFromRead, hne]
  · cases hw : R.write (writeCallOf B R branch msg f) <;>
      simp [processFile, hvalid, hw, okResult, errorResult]
  · cases hw : R.write (writeCallOf B R branch msg f) <;>
      simp [processFile, hvalid, hw, okResult, errorResult]
  · cases hw : R.write (writeCallOf B R branch msg f) <;>
      simp [processFile, hvalid, hw, okResult, errorResult]

/-- C4 witness: at a concrete valid file against the never-exists remote,
the read-then-write trace and the markerless create are evaluated. -/
theorem c4_revision_marker_witness :
    ((processFile B0 R0 "main" "msg" fileA).2 =
      [NetCall.getContent (fileA.path.getD "") "main",
       NetCall.write (writeCallOf B0 R0 "main" "msg" fileA)] ∧
    (∀ e, R0.getContent (fileA.path.getD "") "main" = Except.error e →
      (writeCallOf B0 R0 "main" "msg" fileA).sha = none) ∧
    (R0.getContent (fileA.path.getD "") "main" = Except.ok none →
      (writeCallOf B0 R0 "main" "msg" fileA).sha = none) ∧
    (∀ s, R0.getContent (fileA.path.getD "") "main" = Except.ok (some s) → s ≠ "" →
      (writeCallOf B0 R0 "main" "msg" fileA).sha = some s) ∧
    (processFile B0 R0 "main" "msg" fileA).1.reason = none ∧
    (processFile B0 R0 "main" "msg" fileA).1.status ≠ FStatus.skipped ∧
    ((processFile B0 R0 "main" "msg" fileA).1.message =
      match R0.write (writeCallOf B0 R0 "main" "msg" fileA) with
      | Except.error m => some m
      | Except.ok _ => none)) :=
  c4_revision_marker B0 R0 "main" "msg" fileA (by decide)

/-- C8: the content string carried by the write call is the base64
re-encoding of the declared content: the base64-decoded bytes when the
encoding field equals "base64", and the UTF-8 bytes for any other encoding
value, an absent field included. -/
theorem c8_content_transcoding (B : BufferModel) (R : Remote)
    (branch msg : String) (f : FileSpec) (c : String)
    (hvalid : invalidFile f = false) (hc : f.content = some c) :
    NetCall.write (writeCallOf B R branch msg f) ∈ (processFile B R branch msg f).2 ∧
    (f.encoding = some "base64" →
      (writeCallOf B R branch msg f).content = B.toBase64 (B.fromBase64 c)) ∧
    (f.encoding ≠ some "base64" →
      (writeCallOf B R branch msg f).content = B.toBase64 (B.fromUtf8 c)) := by
  refine ⟨?_, ?_, ?_⟩
  · cases hw : R.write (writeCallOf B R branch msg f) <;>
      simp [processFile, hvalid, hw]
  · intro he
    simp [writeCallOf, encodedContent, he, hc]
  · intro he
    simp [writeCallOf, encodedContent, he, hc]

/-- C8 witness: a concrete utf-8 file evaluates to a write carrying the
base64 re-encoding of its UTF-8 bytes. -/
theorem c8_content_transcoding_witness :
    (NetCall.write (writeCallOf B0 R0 "main" "msg" fileA) ∈
      (processFile B0 R0 "main" "msg" fileA).2 ∧
    (fileA.encoding = some "base64" →
      (writeCallOf B0 R0 "main" "msg" fileA).content = B0.toBase64 (B0.fromBase64 "hi")) ∧
    (fileA.encoding ≠ some "base64" →
      (writeCallOf B0 R0 "main" "msg" fileA).content = B0.toBase64 (B0.fromUtf8 "hi"))) :=
  c8_content_transcoding B0 R0 "main" "msg" fileA "hi" (by decide) rfl

/-- C9: in an accepted batch, a write failure at position n is recorded
there as an "error" result carrying the service's message, the response
still has one result per file, and every later file is still processed:
its result is reported at its position and, when valid, its write call
still appears in the network trace. -/
theorem c9_write_failure_isolated (B : BufferModel) (R : Remote)
    (cfg : Config) (req : Request) (fs : List FileSpec) (n : Nat)
    (f : FileSpec) (m : String)
    (horig : isOriginAllowed cfg req = true)
    (hfiles : req.body.files = FilesField.arr fs) (hne : fs ≠ [])
    (hn : fs[n]? = some f) (hvalid : invalidFile f = false)
    (hw : R.write (writeCallOf B R (effBranch cfg req) (effMessage req) f) = Except.error m) :
    ∃ results, (postTasks B R cfg req).1 = TasksResponse.success results ∧
      results.length = fs.length ∧
      results[n]? = some (errorResult (f.path.getD "") m) ∧
      (∀ i : Nat, n < i →
        results[i]? =
          (fs[i]?).map (fun g => (processFile B R (effBranch cfg req) (effMessage req) g).1)) ∧
      (∀ i : Nat, ∀ g, n < i → fs[i]? = some g → invalidFile g = false →
        NetCall.write (writeCallOf B R (effBranch cfg req) (effMessage req) g) ∈
          (postTasks B R cfg req).2) := by
  rw [postTasks_accepted B R cfg req fs horig hfiles hne]
  refine ⟨_, rfl, by simp, ?_, fun i => by simp [List.getElem?_map], ?_⟩
  · simp only [List.getElem?_map, hn, Option.map_some']
    simp [processFile, hvalid, hw]
  · intro i g hi hg hgvalid
    have hmem : g ∈ fs := by
      obtain ⟨hi, rfl⟩ := List.getElem?_eq_some.mp hg
      exact List.getElem_mem hi
    simp only [List.mem_flatten, List.mem_map]
    refine ⟨(processFile B R (effBranch cfg req) (effMessage req) g).2, ⟨g, hmem, rfl⟩, ?_⟩
    cases hwg : R.write (writeCallOf B R (effBranch cfg req) (effMessage req) g) <;>
      simp [processFile, hgvalid, hwg]

/-- C9 witness: a concrete one-file batch against the always-failing
remote reports the error at position 0 and keeps the one-per-file shape. -/
theorem c9_write_failure_isolated_witness :
    ∃ results, (postTasks B0 Rfail cfgEmpty reqNoOrigin).1 = TasksResponse.success results ∧
      results.length = [fileA].length ∧
      results[0]? = some (errorResult (fileA.path.getD "") "Validation Failed") ∧
      (∀ i : Nat, 0 < i →
        results[i]? =
          ([fileA][i]?).map
            (fun g => (processFile B0 Rfail (effBranch cfgEmpty reqNoOrigin) (effMessage reqNoOrigin) g).1)) ∧
      (∀ i : Nat, ∀ g, 0 < i → [fileA][i]? = some g → invalidFile g = false →
        NetCall.write (writeCallOf B0 Rfail (effBranch cfgEmpty reqNoOrigin) (effMessage reqNoOrigin) g) ∈
          (postTasks B0 Rfail cfgEmpty reqNoOrigin).2) :=
  c9_write_failure_isolated B0 Rfail cfgEmpty reqNoOrigin [fileA] 0 fileA
    "Validation Failed" (by decide) rfl (by decide) rfl (by decide) rfl

/-- Configuration whose allow-list holds a source address. -/
def cfgIp : Config := { allowedOrigins := ["1.2.3.4"], branch := "main" }

/-- Request with a declared origin absent from `cfgIp`'s allow-list, sent
from the listed source address, carrying one valid file. -/
def reqEvil : Request :=
  { origin := some "https://evil.example", ip := "1.2.3.4",
    body := { files := FilesField.arr [fileA], commitMessage := none, branch := none } }

/-- C6 counterexample: the allow-list ["1.2.3.4"] is non-empty and does not
contain the declared origin "https://evil.example", so the claim asserts a
403 response; in the program the cors middleware, registered before the
route, rejects that origin, Express's default error handler answers 500
before the handler runs, and zero network calls are made — the response is
never 403. -/
theorem c6_counterexample :
    cfgIp.allowedOrigins ≠ [] ∧
    cfgIp.allowedOrigins.contains "https://evil.example" = false ∧
    reqEvil.origin = some "https://evil.example" ∧
    corsAllows cfgIp reqEvil.origin = false ∧
    appPostTasks B0 R0 cfgIp reqEvil = (AppResponse.serverError, []) ∧
    (appPostTasks B0 R0 cfgIp reqEvil).1.statusCode = 500 := by
  refine ⟨by decide, by decide, rfl, by decide, by decide, by decide⟩

/-- C6 (amended): for a request carrying a non-empty declared Origin
header, when the allow-list is non-empty and that origin is absent from
it, the cors middleware rejects the request before the handler runs: the
response is 500 (Express's default error handler), not 403, with zero
network calls; when the allow-list is empty, every origin (and originless
calls) is accepted by both the middleware and the handler's own check. -/
theorem c6_origin_gate (B : BufferModel) (R : Remote) (cfg : Config)
    (req : Request) :
    (∀ o, cfg.allowedOrigins ≠ [] → req.origin = some o → o ≠ "" →
      o ∉ cfg.allowedOrigins →
      appPostTasks B R cfg req = (AppResponse.serverError, []) ∧
      (appPostTasks B R cfg req).1.statusCode = 500) ∧
    (cfg.allowedOrigins = [] →
      corsAllows cfg req.origin = true ∧
      isOriginAllowed cfg req = true ∧
      (appPostTasks B R cfg req).1 ≠ AppResponse.serverError ∧
      (postTasks B R cfg req).1 ≠ TasksResponse.forbidden) := by
  constructor
  · intro o hne hor he hno
    have hcors : corsAllows cfg req.origin = false := by
      unfold corsAllows
      rw [hor]
      simp [hne, hno, he]
    unfold appPostTasks
    rw [hcors]
    simp [AppResponse.statusCode]
  · intro hempty
    have hcors : corsAllows cfg req.origin = true := by
      unfold corsAllows
      cases hor : req.origin with
      | none => rfl
      | some o => simp [hempty]
    have horig : isOriginAllowed cfg req = true := by
      unfold isOriginAllowed
      simp [hempty]
    refine ⟨hcors, horig, ?_, ?_⟩
    · unfold appPostTasks
      rw [hcors]
      simp
    · unfold postTasks
      rw [horig]
      cases hf : req.body.files with
      | arr fs =>
          by_cases hl : fs.length = 0 <;> simp [hl]
      | absent => simp
      | notArray => simp

/-- C6 witness: the concrete declared-origin mismatch is answered 500 with
an empty trace, and the empty allow-list accepts a concrete originless
request through both gates. -/
theorem c6_origin_gate_witness :
    (appPostTasks B0 R0 cfgA reqEvil = (AppResponse.serverError, []) ∧
      (appPostTasks B0 R0 cfgA reqEvil).1.statusCode = 500) ∧
    (corsAllows cfgEmpty reqNoOrigin.origin = true ∧
      isOriginAllowed cfgEmpty reqNoOrigin = true ∧
      (appPostTasks B0 R0 cfgEmpty reqNoOrigin).1 ≠ AppResponse.serverError ∧
      (postTasks B0 R0 cfgEmpty reqNoOrigin).1 ≠ TasksResponse.forbidden) :=
  ⟨(c6_origin_gate B0 R0 cfgA reqEvil).1 "https://evil.example"
      (by decide) rfl (by decide) (by decide),
   (c6_origin_gate B0 R0 cfgEmpty reqNoOrigin).2 rfl⟩

end Agentme
